import Mathlib

/-!
Verification development for the medvani chat client.

The definitions below are a shallow embedding of the client-side chat
store (src/frontend/components/useChatStore.ts) and of the relevant
functions of the chat interface component
(src/frontend/components/ChatInterface.tsx).  JavaScript objects used as
string-keyed maps are embedded as association lists; nondeterministic
effects (network outcomes, microphone acquisition) are passed in as
explicit outcome parameters.
-/

namespace Medvani

/-- Lookup in a string-keyed association list (first match), embedding
the JavaScript object read `m[k]`. -/
def recordGet {α : Type} (m : List (String × α)) (k : String) : Option α :=
  match m with
  | [] => none
  | (k₁, v) :: rest => if k₁ = k then some v else recordGet rest k

/-- Update-or-insert in a string-keyed association list, embedding the
JavaScript spread write `{ ...m, [k]: v }` (the key keeps its position
when already present, and is appended otherwise). -/
def recordSet {α : Type} (m : List (String × α)) (k : String) (v : α) :
    List (String × α) :=
  match m with
  | [] => [(k, v)]
  | (k₁, v₁) :: rest =>
      if k₁ = k then (k, v) :: rest else (k₁, v₁) :: recordSet rest k v

/-- Key removal in a string-keyed association list, embedding the
JavaScript `delete m[k]`. -/
def recordDelete {α : Type} (m : List (String × α)) (k : String) :
    List (String × α) :=
  match m with
  | [] => []
  | (k₁, v₁) :: rest =>
      if k₁ = k then recordDelete rest k else (k₁, v₁) :: recordDelete rest k

/-- Message author role (useChatStore.ts, type Role). -/
inductive Role where
  | user
  | assistant
deriving DecidableEq, Repr

/-- Attachment kind (useChatStore.ts, MediaAttachment.kind). -/
inductive MediaKind where
  | image
  | video
  | pdf
  | audio
deriving DecidableEq, Repr

/-- useChatStore.ts, type MediaAttachment. -/
structure MediaAttachment where
  kind : MediaKind
  content : String
  name : Option String := none
deriving DecidableEq, Repr

/-- useChatStore.ts, type ChatMessage. -/
structure ChatMessage where
  role : Role
  text : String
  media : Option (List MediaAttachment) := none
deriving DecidableEq, Repr

/-- useChatStore.ts, type SessionItem. -/
structure SessionItem where
  id : String
  title : String
  updated_at : Option String := none
deriving DecidableEq, Repr

/-- The data fields of the zustand store (useChatStore.ts, ChatState):
the session list, the active session id, the per-session message map and
the UI language. -/
structure ChatState where
  sessions : List SessionItem
  activeSessionId : Option String
  messagesBySession : List (String × List ChatMessage)
  language : String
deriving DecidableEq, Repr

/-- The initial store state (useChatStore.ts, lines 39-42). -/
def storeInit : ChatState :=
  { sessions := []
    activeSessionId := none
    messagesBySession := []
    language := "auto" }

/-- useChatStore.ts, setLanguage. -/
def setLanguage (st : ChatState) (language : String) : ChatState :=
  { st with language := language }

/-- useChatStore.ts, setSessions: replaces the full session set. -/
def setSessions (st : ChatState) (sessions : List SessionItem) : ChatState :=
  { st with sessions := sessions }

/-- useChatStore.ts, setActiveSession: accepts any value, no validation. -/
def setActiveSession (st : ChatState) (activeSessionId : Option String) :
    ChatState :=
  { st with activeSessionId := activeSessionId }

/-- useChatStore.ts, setMessages. -/
def setMessages (st : ChatState) (sessionId : String)
    (messages : List ChatMessage) : ChatState :=
  { st with
    messagesBySession := recordSet st.messagesBySession sessionId messages }

/-- useChatStore.ts, appendMessage: appends to the existing sequence,
treating a missing key as the empty sequence (`?? []`). -/
def appendMessage (st : ChatState) (sessionId : String) (message : ChatMessage) :
    ChatState :=
  { st with
    messagesBySession :=
      recordSet st.messagesBySession sessionId
        ((recordGet st.messagesBySession sessionId).getD [] ++ [message]) }

/-- useChatStore.ts, clearSessionMessages. -/
def clearSessionMessages (st : ChatState) (sessionId : String) : ChatState :=
  { st with
    messagesBySession := recordSet st.messagesBySession sessionId [] }

/-- useChatStore.ts, removeSession (lines 61-75): filters the session out
of the set, deletes its message entry, and nulls the active id when it
pointed at the removed session — all in one state transition. -/
def removeSession (st : ChatState) (sessionId : String) : ChatState :=
  { sessions := st.sessions.filter (fun s => s.id ≠ sessionId)
    messagesBySession := recordDelete st.messagesBySession sessionId
    activeSessionId :=
      if st.activeSessionId = some sessionId then none else st.activeSessionId
    language := st.language }

/-- useChatStore.ts, updateSessionTitle: in-place title rewrite. -/
def updateSessionTitle (st : ChatState) (sessionId : String) (title : String) :
    ChatState :=
  { st with
    sessions :=
      st.sessions.map (fun s =>
        if s.id = sessionId then { s with title := title } else s) }

/-! ### ChatInterface.tsx: language normalization -/

/-- JavaScript String.prototype.trim: strips leading and trailing
whitespace.  Embedded structurally over the character list so that it
evaluates by reduction. -/
def jsTrim (s : String) : String :=
  ⟨((s.data.dropWhile Char.isWhitespace).reverse.dropWhile
      Char.isWhitespace).reverse⟩

/-- JavaScript String.prototype.toLowerCase, for the ASCII codes the
language table uses.  Embedded structurally over the character list. -/
def jsToLower (s : String) : String :=
  ⟨s.data.map Char.toLower⟩

/-- The fixed code table of ChatInterface.tsx, normalizeUiLanguage
(lines 81-94), mapping lowered bare or regioned codes to full
region-qualified codes. -/
def uiLangMap : List (String × String) :=
  [("en", "en-IN"), ("en-in", "en-IN"),
   ("hi", "hi-IN"), ("hi-in", "hi-IN"),
   ("ta", "ta-IN"), ("ta-in", "ta-IN"),
   ("bn", "bn-IN"), ("bn-in", "bn-IN"),
   ("te", "te-IN"), ("te-in", "te-IN"),
   ("mr", "mr-IN"), ("mr-in", "mr-IN")]

/-- ChatInterface.tsx, normalizeUiLanguage (lines 77-96).  The JavaScript
`map[lowered] ?? code` returns the original, untrimmed code when the
table has no entry. -/
def normalizeUiLanguage (code : String) : String :=
  let lowered := jsToLower (jsTrim code)
  if lowered = "" then "en-IN"
  else if lowered = "auto" then "auto"
  else (recordGet uiLangMap lowered).getD code

/-! ### ChatInterface.tsx: session creation and message exchange

The component keeps local state (the composed input text and the pending
attachments) next to the store, and an identified user is a non-null
`user` value.  Network effects are passed in as outcome parameters:
`CreateOutcome` is the outcome of the `POST /session/new` call inside
createSession (on failure the locally generated `crypto.randomUUID()` id
is the parameter of the failure constructor), and `ChatOutcome` is the
outcome of the `POST /chat` call inside sendMessage (failure covers
network errors, non-2xx statuses, and malformed bodies, all of which
land in the same catch block). -/

/-- ChatInterface.tsx, type SessionApi. -/
structure SessionApi where
  id : String
  title : Option String := none
  updated_at : Option String := none
deriving DecidableEq, Repr

/-- ChatInterface.tsx, type ChatApiResponse.  The `title` field is a
plain string whose truthiness (non-emptiness) is tested before applying
it. -/
structure ChatApiResponse where
  session_id : String
  title : String
  response : Option String := none
deriving DecidableEq, Repr

/-- The component-level state relevant to sendMessage: the store plus
the local input text, the pending attachments and the identified user
(the uid, or none when unauthenticated). -/
structure CompState where
  store : ChatState
  input : String
  media : List MediaAttachment
  user : Option String
deriving DecidableEq, Repr

/-- Outcome of the remote `POST /session/new` call of createSession:
either the parsed response, or any failure together with the locally
generated random id used by the fallback branch. -/
inductive CreateOutcome where
  | ok (data : SessionApi)
  | fail (localId : String)
deriving DecidableEq, Repr

/-- Outcome of the remote `POST /chat` call of sendMessage: either the
parsed response, or any failure (network error, non-2xx, malformed
body). -/
inductive ChatOutcome where
  | ok (data : ChatApiResponse)
  | fail
deriving DecidableEq, Repr

/-- Whether a chat outcome is a success. -/
def ChatOutcome.isOk : ChatOutcome → Bool
  | .ok _ => true
  | .fail => false

/-- ChatInterface.tsx, createSession (lines 191-223).  On success the
returned session is merged into the set (updated in place when the id is
already present, prepended otherwise); on failure a local placeholder
session is prepended.  Either way it becomes active, its message list is
reset, and the local input and attachments are cleared. -/
def createSessionRun (cs : CompState) (out : CreateOutcome) : CompState :=
  match cs.user with
  | none => cs
  | some _ =>
    match out with
    | .ok data =>
      let next : SessionItem :=
        { id := data.id, title := data.title.getD "New chat"
          updated_at := data.updated_at }
      let sessions :=
        if cs.store.sessions.any (fun s => s.id = next.id) then
          cs.store.sessions.map (fun s => if s.id = next.id then next else s)
        else
          next :: cs.store.sessions
      { cs with
        store :=
          setMessages
            (setActiveSession (setSessions cs.store sessions) (some next.id))
            next.id []
        input := ""
        media := [] }
    | .fail localId =>
      { cs with
        store :=
          setMessages
            (setActiveSession
              (setSessions cs.store
                ({ id := localId, title := "New chat" } :: cs.store.sessions))
              (some localId))
            localId []
        input := ""
        media := [] }

/-- Result of a sendMessage call: the final component state, whether the
remote `POST /chat` request was issued, and whether the deferred
session-list refresh (`setTimeout(... loadSessions ..., 1200)`) was
scheduled. -/
structure SendResult where
  state : CompState
  chatRequested : Bool
  refreshScheduled : Bool
deriving DecidableEq, Repr

/-- ChatInterface.tsx, sendMessage (lines 278-332).  Guards: a non-null
user; an active session id, auto-creating one through createSession when
absent; a non-empty trimmed input or at least one attachment.  Then the
user turn is appended optimistically and the input cleared, the chat
request is issued, and the assistant turn is appended from the response
(success) or as the fixed error text (failure, absorbed rather than
rethrown).  The deferred session-list refresh is scheduled inside the
`try` block, after a successful response only.  The input and media
values read by the emptiness check and the user turn are the render-time
closure values (`inp`, `med`): the setInput/setMedia calls inside
createSession do not change them. -/
def sendMessage (cs : CompState) (co : CreateOutcome) (ch : ChatOutcome) :
    SendResult :=
  match cs.user with
  | none => ⟨cs, false, false⟩
  | some _ =>
    let inp := cs.input
    let med := cs.media
    let cs₁ :=
      match cs.store.activeSessionId with
      | some _ => cs
      | none => createSessionRun cs co
    match cs₁.store.activeSessionId with
    | none => ⟨cs₁, false, false⟩
    | some sessionId =>
      if jsTrim inp = "" ∧ med = [] then ⟨cs₁, false, false⟩
      else
        let userText :=
          if jsTrim inp = "" then "[Media attached]" else jsTrim inp
        let sentMedia := med
        let cs₂ :=
          { cs₁ with
            store :=
              appendMessage cs₁.store sessionId
                { role := Role.user, text := userText
                  media := if sentMedia = [] then none else some sentMedia }
            input := ""
            media := [] }
        match ch with
        | .ok data =>
          let st₁ :=
            appendMessage cs₂.store sessionId
              { role := Role.assistant, text := data.response.getD "No response." }
          let st₂ :=
            if data.title = "" then st₁
            else updateSessionTitle st₁ sessionId data.title
          ⟨{ cs₂ with store := st₂ }, true, true⟩
        | .fail =>
          ⟨{ cs₂ with
              store :=
                appendMessage cs₂.store sessionId
                  { role := Role.assistant
                    text := "Network/server error. Try again." } },
            true, false⟩

/-! ### ChatInterface.tsx: voice capture -/

/-- The voice-capture flags and handles of the component:
whether a live speech-recognition session is alive (`speechRef`),
whether a raw recorder is alive (`mediaRecorderRef`), the `recording`
and `voiceBusy` flags, and the user-visible `voiceError` string
(rendered whenever non-empty). -/
structure VoiceState where
  speechActive : Bool
  recorderActive : Bool
  recording : Bool
  voiceBusy : Bool
  voiceError : String
deriving DecidableEq, Repr

/-- Outcome of a `getUserMedia` microphone acquisition attempt. -/
inductive MicOutcome where
  | ok
  | fail
deriving DecidableEq, Repr

/-- ChatInterface.tsx, startBackendRecordingCapture (lines 338-350):
acquires the microphone and starts a raw recorder; `none` models the
acquisition throwing (handled by the caller). -/
def startBackendRecordingCapture (vs : VoiceState) (mic : MicOutcome) :
    Option VoiceState :=
  match mic with
  | .ok =>
    some { vs with recorderActive := true, recording := true, voiceBusy := false }
  | .fail => none

/-- ChatInterface.tsx, the `rec.onerror` handler installed by
startVoiceRecording (lines 369-384).  On the specific "network" signal it
sets the fallback notice as the visible voice error, tears down the live
session, and attempts the raw-recording fallback, replacing the notice
with the microphone error when the fallback itself fails; any other
signal sets the generic recognition error text.  The returned flag
records whether a microphone acquisition attempt was made. -/
def speechOnError (vs : VoiceState) (err : String) (mic : MicOutcome) :
    VoiceState × Bool :=
  if err = "network" then
    let vs₁ :=
      { vs with
        voiceError :=
          "Browser voice service unavailable. Falling back to in-app recording."
        speechActive := false
        recording := false
        voiceBusy := true }
    match startBackendRecordingCapture vs₁ mic with
    | some vs₂ => (vs₂, true)
    | none =>
      ({ vs₁ with
          voiceBusy := false
          voiceError := "Microphone access denied or unavailable." }, true)
  else
    ({ vs with voiceError := "Voice recognition error: " ++ err }, false)

/-! ### Reachability of store states

`ReachableStore` closes the initial store state under the eight store
operations exactly as they are exported by useChatStore.ts, with the
arguments unconstrained — this is the notion of "any sequence of store
operations".  The two `...Safe` variants additionally record the caller
obligations under which the data-model invariants are maintained:
useChatStore.ts itself validates nothing (setActiveSession and
setSessions accept any value, setMessages creates missing keys). -/

/-- All states reachable from the initial store state by any sequence of
the store operations of useChatStore.ts, with unconstrained arguments. -/
inductive ReachableStore : ChatState → Prop where
  | init : ReachableStore storeInit
  | lang (st : ChatState) (l : String) :
      ReachableStore st → ReachableStore (setLanguage st l)
  | sess (st : ChatState) (ss : List SessionItem) :
      ReachableStore st → ReachableStore (setSessions st ss)
  | active (st : ChatState) (o : Option String) :
      ReachableStore st → ReachableStore (setActiveSession st o)
  | msgs (st : ChatState) (id : String) (ms : List ChatMessage) :
      ReachableStore st → ReachableStore (setMessages st id ms)
  | append (st : ChatState) (id : String) (m : ChatMessage) :
      ReachableStore st → ReachableStore (appendMessage st id m)
  | clear (st : ChatState) (id : String) :
      ReachableStore st → ReachableStore (clearSessionMessages st id)
  | remove (st : ChatState) (id : String) :
      ReachableStore st → ReachableStore (removeSession st id)
  | title (st : ChatState) (id t : String) :
      ReachableStore st → ReachableStore (updateSessionTitle st id t)

/-- The active-session invariant: a non-null activeSessionId names a
session present in the session set. -/
def ActiveOk (st : ChatState) : Prop :=
  ∀ id, st.activeSessionId = some id → ∃ s ∈ st.sessions, s.id = id

/-- The key invariant: every key of the conversation-state mapping names
a session present in the session set. -/
def KeysOk (st : ChatState) : Prop :=
  ∀ k, (recordGet st.messagesBySession k).isSome → ∃ s ∈ st.sessions, s.id = k

/-- Store states reachable when callers respect the obligations that
keep the active id valid: setActiveSession is only given null or the id
of an existing session, and setSessions never drops the session the
active id names.  All other operations are unconstrained. -/
inductive ReachableActiveSafe : ChatState → Prop where
  | init : ReachableActiveSafe storeInit
  | lang (st : ChatState) (l : String) :
      ReachableActiveSafe st → ReachableActiveSafe (setLanguage st l)
  | sess (st : ChatState) (ss : List SessionItem) :
      ReachableActiveSafe st →
      (∀ id, st.activeSessionId = some id → ∃ s ∈ ss, s.id = id) →
      ReachableActiveSafe (setSessions st ss)
  | active (st : ChatState) (o : Option String) :
      ReachableActiveSafe st →
      (∀ id, o = some id → ∃ s ∈ st.sessions, s.id = id) →
      ReachableActiveSafe (setActiveSession st o)
  | msgs (st : ChatState) (id : String) (ms : List ChatMessage) :
      ReachableActiveSafe st → ReachableActiveSafe (setMessages st id ms)
  | append (st : ChatState) (id : String) (m : ChatMessage) :
      ReachableActiveSafe st → ReachableActiveSafe (appendMessage st id m)
  | clear (st : ChatState) (id : String) :
      ReachableActiveSafe st → ReachableActiveSafe (clearSessionMessages st id)
  | remove (st : ChatState) (id : String) :
      ReachableActiveSafe st → ReachableActiveSafe (removeSession st id)
  | title (st : ChatState) (id t : String) :
      ReachableActiveSafe st → ReachableActiveSafe (updateSessionTitle st id t)

/-- Store states reachable when callers respect the obligations that
keep the message-map keys valid: message-log operations are only applied
to ids of existing sessions, and setSessions never drops a session that
still has a message-log entry.  All other operations are
unconstrained. -/
inductive ReachableKeysSafe : ChatState → Prop where
  | init : ReachableKeysSafe storeInit
  | lang (st : ChatState) (l : String) :
      ReachableKeysSafe st → ReachableKeysSafe (setLanguage st l)
  | sess (st : ChatState) (ss : List SessionItem) :
      ReachableKeysSafe st →
      (∀ k, (recordGet st.messagesBySession k).isSome → ∃ s ∈ ss, s.id = k) →
      ReachableKeysSafe (setSessions st ss)
  | active (st : ChatState) (o : Option String) :
      ReachableKeysSafe st → ReachableKeysSafe (setActiveSession st o)
  | msgs (st : ChatState) (id : String) (ms : List ChatMessage) :
      ReachableKeysSafe st → (∃ s ∈ st.sessions, s.id = id) →
      ReachableKeysSafe (setMessages st id ms)
  | append (st : ChatState) (id : String) (m : ChatMessage) :
      ReachableKeysSafe st → (∃ s ∈ st.sessions, s.id = id) →
      ReachableKeysSafe (appendMessage st id m)
  | clear (st : ChatState) (id : String) :
      ReachableKeysSafe st → (∃ s ∈ st.sessions, s.id = id) →
      ReachableKeysSafe (clearSessionMessages st id)
  | remove (st : ChatState) (id : String) :
      ReachableKeysSafe st → ReachableKeysSafe (removeSession st id)
  | title (st : ChatState) (id t : String) :
      ReachableKeysSafe st → ReachableKeysSafe (updateSessionTitle st id t)

/-! ### Concrete sample states used by witnesses and counterexamples -/

/-- A store holding two sessions with message entries, the first one
active. -/
def storeTwo : ChatState :=
  { sessions := [{ id := "a", title := "t1" }, { id := "b", title := "t2" }]
    activeSessionId := some "a"
    messagesBySession :=
      [("a", [{ role := Role.user, text := "hello" }]),
       ("b", [{ role := Role.user, text := "hi" }])]
    language := "auto" }

/-- Component state for the send scenario of the spec: an identified
user, an active session with an empty log, and the composed input text
"fever since yesterday" with no attachments. -/
def csFever : CompState :=
  { store :=
      { sessions := [{ id := "s1", title := "New chat" }]
        activeSessionId := some "s1"
        messagesBySession := []
        language := "auto" }
    input := "fever since yesterday"
    media := []
    user := some "u1" }

/-- The successful backend reply of the send scenario. -/
def dataFever : ChatApiResponse :=
  { session_id := "s1", title := ""
    response := some "Stay hydrated and monitor temperature." }

/-- Component state with an identified user, no active session, empty
input and no attachments. -/
def csNoActive : CompState :=
  { store := storeInit, input := "", media := [], user := some "u1" }

/-- Component state with an identified user, an active session, empty
input and no attachments. -/
def csEmpty : CompState :=
  { store :=
      { sessions := [{ id := "s1", title := "New chat" }]
        activeSessionId := some "s1"
        messagesBySession := []
        language := "auto" }
    input := "   "
    media := []
    user := some "u1" }

/-- A session item used by invariant witnesses. -/
def sessA : SessionItem := { id := "s1", title := "t" }

/-- Voice-capture state right after a live recognition session started
(ChatInterface.tsx lines 390-393: recording and voiceBusy set, no
error). -/
def vsLive : VoiceState :=
  { speechActive := true, recorderActive := false, recording := true
    voiceBusy := true, voiceError := "" }

/-! ### Association-list lemmas -/

theorem recordGet_recordSet_self {α : Type} (m : List (String × α)) (k : String)
    (v : α) : recordGet (recordSet m k v) k = some v := by
  induction m with
  | nil => simp [recordGet, recordSet]
  | cons p rest ih =>
    obtain ⟨k₁, v₁⟩ := p
    by_cases h : k₁ = k
    · simp [recordSet, recordGet, h]
    · simp [recordSet, recordGet, h, ih]

theorem recordGet_recordSet_ne {α : Type} (m : List (String × α)) (k k₂ : String)
    (v : α) (h : k₂ ≠ k) :
    recordGet (recordSet m k v) k₂ = recordGet m k₂ := by
  induction m with
  | nil =>
    simp only [recordSet, recordGet]
    rw [if_neg (Ne.symm h)]
  | cons p rest ih =>
    obtain ⟨k₁, v₁⟩ := p
    by_cases h₁ : k₁ = k
    · subst h₁
      simp only [recordSet, if_pos rfl, recordGet]
      rw [if_neg (Ne.symm h), if_neg (Ne.symm h)]
    · simp only [recordSet, if_neg h₁, recordGet, ih]

theorem recordGet_recordDelete_self {α : Type} (m : List (String × α))
    (k : String) : recordGet (recordDelete m k) k = none := by
  induction m with
  | nil => simp [recordGet, recordDelete]
  | cons p rest ih =>
    obtain ⟨k₁, v₁⟩ := p
    by_cases h : k₁ = k
    · simp [recordDelete, h, ih]
    · simp [recordDelete, recordGet, h, ih]

theorem recordGet_recordDelete_ne {α : Type} (m : List (String × α))
    (k k₂ : String) (h : k₂ ≠ k) :
    recordGet (recordDelete m k) k₂ = recordGet m k₂ := by
  induction m with
  | nil => simp [recordDelete]
  | cons p rest ih =>
    obtain ⟨k₁, v₁⟩ := p
    by_cases h₁ : k₁ = k
    · subst h₁
      simp only [recordDelete, recordGet, ih, eq_self_iff_true, ite_true]
      rw [if_neg (Ne.symm h)]
    · simp only [recordDelete, if_neg h₁, recordGet, ih]

theorem isSome_of_recordGet_recordSet {α : Type} (m : List (String × α))
    (k k₂ : String) (v : α)
    (h : (recordGet (recordSet m k v) k₂).isSome) :
    k₂ = k ∨ (recordGet m k₂).isSome := by
  by_cases hk : k₂ = k
  · exact Or.inl hk
  · exact Or.inr (by rwa [recordGet_recordSet_ne m k k₂ v hk] at h)

theorem isSome_of_recordGet_recordDelete {α : Type} (m : List (String × α))
    (k k₂ : String) (h : (recordGet (recordDelete m k) k₂).isSome) :
    k₂ ≠ k ∧ (recordGet m k₂).isSome := by
  by_cases hk : k₂ = k
  · subst hk
    rw [recordGet_recordDelete_self] at h
    simp at h
  · exact ⟨hk, by rwa [recordGet_recordDelete_ne m k k₂ hk] at h⟩

/-- Membership survives updateSessionTitle with the id unchanged. -/
theorem updateSessionTitle_preserves_ids (st : ChatState) (id t a : String)
    (h : ∃ s ∈ st.sessions, s.id = a) :
    ∃ s ∈ (updateSessionTitle st id t).sessions, s.id = a := by
  obtain ⟨s, hs, hid⟩ := h
  refine ⟨if s.id = id then { s with title := t } else s,
    List.mem_map_of_mem _ hs, ?_⟩
  split <;> exact hid

/-- Membership survives removeSession when the id differs from the
removed one. -/
theorem removeSession_preserves_other_ids (st : ChatState) (id a : String)
    (hne : a ≠ id) (h : ∃ s ∈ st.sessions, s.id = a) :
    ∃ s ∈ (removeSession st id).sessions, s.id = a := by
  obtain ⟨s, hs, hid⟩ := h
  exact ⟨s, List.mem_filter.mpr ⟨hs, by simp [hid, hne]⟩, hid⟩

/-! ### Claim C1 -/

/-- Claim C1: for any prior store state, removeSession(id) removes the
session with that id from the session set (and keeps exactly the
others), deletes the entry for id from the conversation-state mapping,
and leaves activeSessionId unchanged when it did not equal id, or null
when it did. -/
theorem removeSession_removes_and_clears_active (st : ChatState) (id : String) :
    (∀ s, s ∈ (removeSession st id).sessions ↔ s ∈ st.sessions ∧ s.id ≠ id) ∧
    recordGet (removeSession st id).messagesBySession id = none ∧
    (st.activeSessionId ≠ some id →
      (removeSession st id).activeSessionId = st.activeSessionId) ∧
    (st.activeSessionId = some id →
      (removeSession st id).activeSessionId = none) := by
  refine ⟨?_, recordGet_recordDelete_self _ _, ?_, ?_⟩
  · intro s
    simp [removeSession, List.mem_filter]
  · intro h
    simp [removeSession, h]
  · intro h
    simp [removeSession, h]

/-- Witness for C1 at a concrete two-session store whose active session
is removed. -/
theorem removeSession_removes_and_clears_active_witness :
    ((⟨"a", "t1", none⟩ : SessionItem) ∉ (removeSession storeTwo "a").sessions) ∧
    recordGet (removeSession storeTwo "a").messagesBySession "a" = none ∧
    (removeSession storeTwo "a").activeSessionId = none := by
  have h := removeSession_removes_and_clears_active storeTwo "a"
  refine ⟨?_, h.2.1, h.2.2.2 rfl⟩
  intro hmem
  exact ((h.1 _).mp hmem).2 rfl

/-! ### Claim C6 -/

/-- Claim C6 counterexample: the claim quantifies over states reachable
by any sequence of store operations, but setActiveSession validates
nothing (useChatStore.ts line 45), so the reachable state obtained from
the initial store by setActiveSession("ghost") has a non-null
activeSessionId while the session set is empty. -/
theorem active_invariant_breakable_cex :
    ReachableStore (setActiveSession storeInit (some "ghost")) ∧
    (setActiveSession storeInit (some "ghost")).activeSessionId = some "ghost" ∧
    (setActiveSession storeInit (some "ghost")).sessions = [] :=
  ⟨ReachableStore.active _ _ ReachableStore.init, rfl, rfl⟩

/-- Claim C6 (amended): in every store state reachable by sequences in
which setActiveSession is only given null or the id of an existing
session and setSessions never drops the session the active id names, a
non-null activeSessionId names a session of the session set; and in
every state, removing the active session clears activeSessionId to
null. -/
theorem activeSessionId_names_existing_of_safe :
    (∀ st, ReachableActiveSafe st → ActiveOk st) ∧
    (∀ st id, st.activeSessionId = some id →
      (removeSession st id).activeSessionId = none) := by
  constructor
  · intro st h
    induction h with
    | init =>
      intro id h
      simp [storeInit] at h
    | lang st l _ ih => exact ih
    | sess st ss _ g ih => exact g
    | active st o _ g ih => exact g
    | msgs st id ms _ ih => exact ih
    | append st id m _ ih => exact ih
    | clear st id _ ih => exact ih
    | remove st id _ ih =>
      intro a ha
      simp only [removeSession] at ha
      by_cases hc : st.activeSessionId = some id
      · rw [if_pos hc] at ha
        exact absurd ha (by simp)
      · rw [if_neg hc] at ha
        have hne : a ≠ id := fun he => hc (he ▸ ha)
        exact removeSession_preserves_other_ids st id a hne (ih a ha)
    | title st id t _ ih =>
      intro a ha
      exact updateSessionTitle_preserves_ids st id t a (ih a ha)
  · intro st id h
    simp [removeSession, h]

/-- Witness for C6: the invariant at a concretely built safe state, and
the active-clearing conclusion at a concrete store. -/
theorem activeSessionId_names_existing_of_safe_witness :
    ActiveOk (setActiveSession (setSessions storeInit [sessA]) (some "s1")) ∧
    (removeSession storeTwo "a").activeSessionId = none := by
  constructor
  · refine activeSessionId_names_existing_of_safe.1 _ ?_
    refine ReachableActiveSafe.active _ _
      (ReachableActiveSafe.sess _ _ ReachableActiveSafe.init ?_) ?_
    · intro id h
      simp [storeInit] at h
    · intro id h
      refine ⟨sessA, by simp [setSessions], ?_⟩
      cases h
      rfl
  · exact activeSessionId_names_existing_of_safe.2 storeTwo "a" rfl

/-! ### Claim C7 -/

/-- Claim C7 counterexample: setMessages creates the entry for a missing
key without validating it against the session set (useChatStore.ts lines
46-49), so the reachable state obtained from the initial store by
setMessages("ghost", []) has a mapping key naming no session. -/
theorem keys_invariant_breakable_cex :
    ReachableStore (setMessages storeInit "ghost" []) ∧
    (recordGet (setMessages storeInit "ghost" []).messagesBySession "ghost").isSome
      = true ∧
    (setMessages storeInit "ghost" []).sessions = [] :=
  ⟨ReachableStore.msgs _ _ _ ReachableStore.init, rfl, rfl⟩

/-- Claim C7 (amended): in every store state reachable by sequences in
which the message-log operations are only applied to existing session
ids and setSessions never drops a session that still has a message-log
entry, every key of the conversation-state mapping names a session of
the session set; and removeSession removes the mapping key and the
session in the same single state transition (in its one resulting state
both are gone). -/
theorem messages_keys_exist_of_safe :
    (∀ st, ReachableKeysSafe st → KeysOk st) ∧
    (∀ st id, recordGet (removeSession st id).messagesBySession id = none ∧
      ∀ s ∈ (removeSession st id).sessions, s.id ≠ id) := by
  constructor
  · intro st h
    induction h with
    | init =>
      intro k hk
      simp [storeInit, recordGet] at hk
    | lang st l _ ih => exact ih
    | sess st ss _ g ih => exact g
    | active st o _ ih => exact ih
    | msgs st id ms _ g ih =>
      intro k hk
      simp only [setMessages] at hk
      rcases isSome_of_recordGet_recordSet _ _ _ _ hk with hke | hold
      · subst hke
        exact g
      · exact ih k hold
    | append st id m _ g ih =>
      intro k hk
      simp only [appendMessage] at hk
      rcases isSome_of_recordGet_recordSet _ _ _ _ hk with hke | hold
      · subst hke
        exact g
      · exact ih k hold
    | clear st id _ g ih =>
      intro k hk
      simp only [clearSessionMessages] at hk
      rcases isSome_of_recordGet_recordSet _ _ _ _ hk with hke | hold
      · subst hke
        exact g
      · exact ih k hold
    | remove st id _ ih =>
      intro k hk
      simp only [removeSession] at hk
      obtain ⟨hne, hold⟩ := isSome_of_recordGet_recordDelete _ _ _ hk
      exact removeSession_preserves_other_ids st id k hne (ih k hold)
    | title st id t _ ih =>
      intro k hk
      exact updateSessionTitle_preserves_ids st id t k (ih k hk)
  · intro st id
    refine ⟨recordGet_recordDelete_self _ _, ?_⟩
    intro s hs
    simpa using (List.mem_filter.mp hs).2

/-- Witness for C7: the invariant at a concretely built safe state, and
the atomic-deletion conclusion at a concrete store. -/
theorem messages_keys_exist_of_safe_witness :
    KeysOk (setMessages (setSessions storeInit [sessA]) "s1" []) ∧
    recordGet (removeSession storeTwo "a").messagesBySession "a" = none := by
  constructor
  · refine messages_keys_exist_of_safe.1 _ ?_
    refine ReachableKeysSafe.msgs _ _ _
      (ReachableKeysSafe.sess _ _ ReachableKeysSafe.init ?_) ?_
    · intro k hk
      simp [storeInit, recordGet] at hk
    · exact ⟨sessA, by simp [setSessions], rfl⟩
  · exact (messages_keys_exist_of_safe.2 storeTwo "a").1

/-! ### Claim C10 -/

/-- Claim C10: setMessages(id, ms), appendMessage(id, m) and
clearSessionMessages(id) change only the messagesBySession entry for id:
the session set, the active id, the language, and the entry of every
other key are unchanged. -/
theorem messageOps_frame (st : ChatState) (id k : String)
    (ms : List ChatMessage) (m : ChatMessage) (hk : k ≠ id) :
    (setMessages st id ms).sessions = st.sessions ∧
    (setMessages st id ms).activeSessionId = st.activeSessionId ∧
    (setMessages st id ms).language = st.language ∧
    recordGet (setMessages st id ms).messagesBySession k =
      recordGet st.messagesBySession k ∧
    (appendMessage st id m).sessions = st.sessions ∧
    (appendMessage st id m).activeSessionId = st.activeSessionId ∧
    (appendMessage st id m).language = st.language ∧
    recordGet (appendMessage st id m).messagesBySession k =
      recordGet st.messagesBySession k ∧
    (clearSessionMessages st id).sessions = st.sessions ∧
    (clearSessionMessages st id).activeSessionId = st.activeSessionId ∧
    (clearSessionMessages st id).language = st.language ∧
    recordGet (clearSessionMessages st id).messagesBySession k =
      recordGet st.messagesBySession k :=
  ⟨rfl, rfl, rfl, recordGet_recordSet_ne _ _ _ _ hk,
   rfl, rfl, rfl, recordGet_recordSet_ne _ _ _ _ hk,
   rfl, rfl, rfl, recordGet_recordSet_ne _ _ _ _ hk⟩

/-- Witness for C10 at a concrete two-session store. -/
theorem messageOps_frame_witness :
    recordGet (appendMessage storeTwo "a"
        { role := Role.user, text := "x" }).messagesBySession "b" =
      recordGet storeTwo.messagesBySession "b" ∧
    (setMessages storeTwo "a" []).activeSessionId = storeTwo.activeSessionId := by
  have h := messageOps_frame storeTwo "a" "b" [] { role := Role.user, text := "x" }
    (by decide)
  exact ⟨h.2.2.2.2.2.2.2.1, h.2.1⟩

/-! ### Claim C2 -/

/-- Claim C2: a sendMessage call with an identified user, an active
session, non-empty trimmed input and a successful backend reply appends
exactly two messages to the session log in order — the user turn with
the trimmed input text, then the assistant turn with the response field
(or the fixed "No response." placeholder when it is absent) — and clears
the local input. -/
theorem sendMessage_success_appends_two_messages
    (cs : CompState) (co : CreateOutcome) (data : ChatApiResponse)
    (u sid : String)
    (hu : cs.user = some u)
    (hs : cs.store.activeSessionId = some sid)
    (ht : jsTrim cs.input ≠ "") :
    recordGet
        (sendMessage cs co (ChatOutcome.ok data)).state.store.messagesBySession
        sid =
      some ((recordGet cs.store.messagesBySession sid).getD [] ++
        [{ role := Role.user, text := jsTrim cs.input
           media := if cs.media = [] then none else some cs.media },
         { role := Role.assistant, text := data.response.getD "No response." }]) ∧
    (sendMessage cs co (ChatOutcome.ok data)).state.input = "" ∧
    (sendMessage cs co (ChatOutcome.ok data)).chatRequested = true := by
  obtain ⟨⟨sessions, active, msgs, lng⟩, inp, med, usr⟩ := cs
  dsimp only at hu hs ht ⊢
  subst hu
  subst hs
  simp only [sendMessage]
  rw [if_neg (fun hh => ht hh.1), if_neg ht]
  refine ⟨?_, rfl, rfl⟩
  split
  · simp [appendMessage, recordGet_recordSet_self]
  · simp [appendMessage, updateSessionTitle, recordGet_recordSet_self]

/-- Witness for C2: the send scenario of the spec, with the input
"fever since yesterday" and the reply "Stay hydrated and monitor
temperature.". -/
theorem sendMessage_success_appends_two_messages_witness :
    recordGet (sendMessage csFever (CreateOutcome.fail "x")
        (ChatOutcome.ok dataFever)).state.store.messagesBySession "s1" =
      some [{ role := Role.user, text := "fever since yesterday" },
            { role := Role.assistant
              text := "Stay hydrated and monitor temperature." }] ∧
    (sendMessage csFever (CreateOutcome.fail "x")
        (ChatOutcome.ok dataFever)).state.input = "" := by
  have h := sendMessage_success_appends_two_messages csFever
    (CreateOutcome.fail "x") dataFever "u1" "s1" rfl rfl (by decide)
  refine ⟨?_, h.2.1⟩
  rw [h.1]
  rfl

/-! ### Claim C3 -/

/-- Claim C3: a sendMessage call whose chat request fails (network
error, non-2xx or malformed body all reach the same catch block)
appends the optimistic user message followed by an assistant message
with the fixed error text, and still clears the input; the failure is
absorbed (sendMessage is total, no error escapes). -/
theorem sendMessage_failure_appends_error_message
    (cs : CompState) (co : CreateOutcome) (u sid : String)
    (hu : cs.user = some u)
    (hs : cs.store.activeSessionId = some sid)
    (hne : ¬(jsTrim cs.input = "" ∧ cs.media = [])) :
    recordGet
        (sendMessage cs co ChatOutcome.fail).state.store.messagesBySession
        sid =
      some ((recordGet cs.store.messagesBySession sid).getD [] ++
        [{ role := Role.user
           text := if jsTrim cs.input = "" then "[Media attached]" else jsTrim cs.input
           media := if cs.media = [] then none else some cs.media },
         { role := Role.assistant, text := "Network/server error. Try again." }]) ∧
    (sendMessage cs co ChatOutcome.fail).state.input = "" ∧
    (sendMessage cs co ChatOutcome.fail).chatRequested = true := by
  obtain ⟨⟨sessions, active, msgs, lng⟩, inp, med, usr⟩ := cs
  dsimp only at hu hs hne ⊢
  subst hu
  subst hs
  simp only [sendMessage]
  rw [if_neg hne]
  refine ⟨?_, rfl, rfl⟩
  simp [appendMessage, recordGet_recordSet_self]

/-- Witness for C3: the failing send scenario of the spec. -/
theorem sendMessage_failure_appends_error_message_witness :
    recordGet (sendMessage csFever (CreateOutcome.fail "x")
        ChatOutcome.fail).state.store.messagesBySession "s1" =
      some [{ role := Role.user, text := "fever since yesterday" },
            { role := Role.assistant
              text := "Network/server error. Try again." }] ∧
    (sendMessage csFever (CreateOutcome.fail "x")
        ChatOutcome.fail).state.input = "" := by
  have h := sendMessage_failure_appends_error_message csFever
    (CreateOutcome.fail "x") "u1" "s1" rfl rfl (by decide)
  refine ⟨?_, h.2.1⟩
  rw [h.1]
  rfl

/-! ### Claim C4 -/

/-- Claim C4 counterexample: a precondition-passing call (identified
user, active session, non-empty input) whose chat request fails issues
the request but schedules no deferred session-list refresh: the
setTimeout sits inside the try block after a successful response
(ChatInterface.tsx lines 320-323), so the claimed
"regardless of outcome" is false. -/
theorem sendMessage_failure_no_refresh_cex :
    (sendMessage csFever (CreateOutcome.fail "x")
        ChatOutcome.fail).chatRequested = true ∧
    (sendMessage csFever (CreateOutcome.fail "x")
        ChatOutcome.fail).refreshScheduled = false :=
  ⟨rfl, rfl⟩

/-- Claim C4 (amended): for every sendMessage call, the deferred
session-list refresh (the 1.2 second setTimeout of loadSessions) is
scheduled exactly when the chat request was issued and succeeded; in
particular it is never scheduled when the request fails. -/
theorem sendMessage_refresh_iff_success (cs : CompState) (co : CreateOutcome)
    (ch : ChatOutcome) :
    (sendMessage cs co ch).refreshScheduled =
      ((sendMessage cs co ch).chatRequested && ch.isOk) := by
  simp only [sendMessage]
  split
  · rfl
  · split
    · rfl
    · split
      · rfl
      · cases ch <;> rfl

/-! ### Claim C5 -/

/-- Claim C5 counterexample: with an identified user but no active
session, a sendMessage call with empty input and no attachments is not a
no-op — it auto-creates a session before the emptiness check
(ChatInterface.tsx lines 281-284), mutating the session set and the
active id (though it still issues no chat request). -/
theorem sendMessage_empty_no_active_mutates_cex :
    (sendMessage csNoActive (CreateOutcome.fail "local1")
        ChatOutcome.fail).state.store.sessions =
      [{ id := "local1", title := "New chat" }] ∧
    csNoActive.store.sessions = [] ∧
    (sendMessage csNoActive (CreateOutcome.fail "local1")
        ChatOutcome.fail).state.store.activeSessionId = some "local1" ∧
    csNoActive.store.activeSessionId = none ∧
    (sendMessage csNoActive (CreateOutcome.fail "local1")
        ChatOutcome.fail).chatRequested = false :=
  ⟨rfl, rfl, rfl, rfl, rfl⟩

/-- Claim C5 (amended): with an identified user, an already-active
session, empty trimmed input and no attachments, sendMessage is a
complete no-op: the component state (store included) is returned
unchanged, no chat request is issued and no refresh is scheduled. -/
theorem sendMessage_empty_input_noop (cs : CompState) (co : CreateOutcome)
    (ch : ChatOutcome) (u sid : String)
    (hu : cs.user = some u)
    (hs : cs.store.activeSessionId = some sid)
    (hin : jsTrim cs.input = "") (hm : cs.media = []) :
    sendMessage cs co ch = ⟨cs, false, false⟩ := by
  obtain ⟨⟨sessions, active, msgs, lng⟩, inp, med, usr⟩ := cs
  dsimp only at hu hs hin hm ⊢
  subst hu
  subst hs
  simp only [sendMessage]
  rw [if_pos ⟨hin, hm⟩]

/-- Witness for C5 at a concrete state with whitespace-only input. -/
theorem sendMessage_empty_input_noop_witness :
    sendMessage csEmpty (CreateOutcome.fail "x") ChatOutcome.fail =
      ⟨csEmpty, false, false⟩ :=
  sendMessage_empty_input_noop csEmpty (CreateOutcome.fail "x") ChatOutcome.fail
    "u1" "s1" rfl rfl (by decide) rfl

/-! ### Claim C8 -/

/-- Claim C8 counterexample: on the "network" recognition error with a
successful microphone fallback, the handler does surface a user-visible
message — it sets the voiceError string (rendered whenever non-empty) to
a fixed fallback notice (ChatInterface.tsx line 373) — contradicting the
claim that no user-visible error message is surfaced for that condition
unless the fallback fails. -/
theorem speechOnError_network_sets_notice_cex :
    (speechOnError vsLive "network" MicOutcome.ok).1.voiceError =
      "Browser voice service unavailable. Falling back to in-app recording." ∧
    (speechOnError vsLive "network" MicOutcome.ok).1.voiceError ≠ "" := by
  refine ⟨rfl, ?_⟩
  decide

/-- Claim C8 (amended): on the specific "network" recognition error the
state machine tears down the live session and attempts microphone
acquisition for the raw-recording fallback; when acquisition succeeds it
enters raw recording with the fixed fallback notice as the visible
message (the generic recognition-error message is not used for this
condition), and when acquisition fails the microphone error is surfaced
instead. -/
theorem speechOnError_network_fallback (vs : VoiceState) (mic : MicOutcome) :
    (speechOnError vs "network" mic).1.speechActive = false ∧
    (speechOnError vs "network" mic).2 = true ∧
    (mic = MicOutcome.ok →
      (speechOnError vs "network" mic).1.recorderActive = true ∧
      (speechOnError vs "network" mic).1.recording = true ∧
      (speechOnError vs "network" mic).1.voiceBusy = false ∧
      (speechOnError vs "network" mic).1.voiceError =
        "Browser voice service unavailable. Falling back to in-app recording.") ∧
    (mic = MicOutcome.fail →
      (speechOnError vs "network" mic).1.recording = false ∧
      (speechOnError vs "network" mic).1.voiceBusy = false ∧
      (speechOnError vs "network" mic).1.voiceError =
        "Microphone access denied or unavailable.") := by
  cases mic <;> simp [speechOnError, startBackendRecordingCapture]

/-- Witness for C8 at the live-capture state with a successful
fallback. -/
theorem speechOnError_network_fallback_witness :
    (speechOnError vsLive "network" MicOutcome.ok).1.speechActive = false ∧
    (speechOnError vsLive "network" MicOutcome.ok).2 = true ∧
    (speechOnError vsLive "network" MicOutcome.ok).1.recorderActive = true := by
  have h := speechOnError_network_fallback vsLive MicOutcome.ok
  exact ⟨h.1, h.2.1, (h.2.2.1 rfl).1⟩

/-! ### Claim C9 -/

/-- Claim C9 counterexample: the detected code "fr" is non-empty, not
"auto", and absent from the table, yet normalizeUiLanguage returns the
original code "fr" (the JavaScript `map[lowered] ?? code`), not the
fixed default region-qualified code "en-IN" the claim predicts. -/
theorem normalizeUiLanguage_unmapped_cex :
    normalizeUiLanguage "fr" = "fr" ∧ normalizeUiLanguage "fr" ≠ "en-IN" := by
  decide

/-- Claim C9 (amended): normalizeUiLanguage returns the fixed default
"en-IN" for an input that is empty after trimming, "auto" for "auto",
the full region-qualified table entry when the trimmed lowered code has
one, and otherwise — non-empty code with no table entry — the original
code unchanged, not the fixed default. -/
theorem normalizeUiLanguage_characterization :
    (∀ code, jsToLower (jsTrim code) = "" →
      normalizeUiLanguage code = "en-IN") ∧
    (∀ code, jsToLower (jsTrim code) = "auto" →
      normalizeUiLanguage code = "auto") ∧
    (∀ code v, recordGet uiLangMap (jsToLower (jsTrim code)) = some v →
      normalizeUiLanguage code = v) ∧
    (∀ code, jsToLower (jsTrim code) ≠ "" → jsToLower (jsTrim code) ≠ "auto" →
      recordGet uiLangMap (jsToLower (jsTrim code)) = none →
      normalizeUiLanguage code = code) := by
  refine ⟨?_, ?_, ?_, ?_⟩
  · intro code h
    simp only [normalizeUiLanguage]
    rw [if_pos h]
  · intro code h
    simp only [normalizeUiLanguage]
    rw [if_neg (by rw [h]; decide), if_pos h]
  · intro code v h
    simp only [normalizeUiLanguage]
    by_cases h0 : jsToLower (jsTrim code) = ""
    · rw [h0] at h
      rw [(by decide : recordGet uiLangMap "" = none)] at h
      simp at h
    · by_cases h1 : jsToLower (jsTrim code) = "auto"
      · rw [h1] at h
        rw [(by decide : recordGet uiLangMap "auto" = none)] at h
        simp at h
      · rw [if_neg h0, if_neg h1, h]
        rfl
  · intro code h0 h1 h2
    simp only [normalizeUiLanguage]
    rw [if_neg h0, if_neg h1, h2]
    rfl

/-- Witness for C9: a whitespace-only input yields the fixed default,
the unmapped code "pa" is returned unchanged, and the mapped code
" HI " is normalized to its region-qualified form. -/
theorem normalizeUiLanguage_characterization_witness :
    normalizeUiLanguage "   " = "en-IN" ∧
    normalizeUiLanguage "pa" = "pa" ∧
    normalizeUiLanguage " HI " = "hi-IN" :=
  ⟨normalizeUiLanguage_characterization.1 "   " (by decide),
   normalizeUiLanguage_characterization.2.2.2 "pa" (by decide) (by decide)
      (by decide),
   normalizeUiLanguage_characterization.2.2.1 " HI " "hi-IN" (by decide)⟩

end Medvani
